import Mathlib

/-!
Shallow embedding of the OrbitalScan membership backend
(`netlify/functions/payment-webhook.js`, Blobs variant and Supabase variant,
and `netlify/functions/get-membership.js`).

Conventions of the embedding:
* JavaScript string-or-absent payload/header/query fields are `Option String`
  (`none` models `undefined`/`null`); `x || ""` is `orEmpty`, which also
  collapses the falsy empty string.
* The `amount` payload field may be any JavaScript value, modelled by `JsVal`
  (including `NaN`), because the code applies `Number(...)` coercion to it.
* `Date` values are civil timestamps `JsDate` (year, 0-based month, day,
  milliseconds within the day), assuming a UTC runtime, so `setMonth` /
  `setFullYear` act on the same fields `toISOString` serialises.
  `makeDay` is the ECMAScript MakeDay month/day normalisation
  (overflow days roll into the following month); a single carry step is exact
  here because inputs have day ≤ 31 and every month has ≥ 28 days.
* `toISOString` is modelled by `TimeStamp.iso` (the serialisation is injective
  and order-preserving, so the date value itself stands for the string);
  `TimeStamp.invalid` models a stored string `Date.parse` cannot parse.
* The Netlify Blobs store is an association list; `setJSON` prepends
  (the most recent write shadows older ones for `find?`), `getJSON` is lookup.
-/

/-! ### String primitives (embeddings of the JavaScript builtins) -/

/-- The whitespace characters `trim` strips (the ASCII fragment of
JavaScript's WhiteSpace/LineTerminator classes that the claims exercise). -/
def jsWS (c : Char) : Bool :=
  c = ' ' || c = '\t' || c = '\n' || c = '\r'

/-- Embedding of `String.prototype.trim`. -/
def jsTrim (s : String) : String :=
  ⟨((s.data.dropWhile jsWS).reverse.dropWhile jsWS).reverse⟩

/-- Embedding of `String.prototype.toLowerCase` (ASCII case mapping). -/
def jsToLower (s : String) : String :=
  ⟨s.data.map Char.toLower⟩

/-- Embedding of `String.prototype.toUpperCase` (ASCII case mapping). -/
def jsToUpper (s : String) : String :=
  ⟨s.data.map Char.toUpper⟩

/-- Decimal digit value of a character, if it is one. -/
def digitVal (c : Char) : Option Nat :=
  if '0' ≤ c ∧ c ≤ '9' then some (c.toNat - '0'.toNat) else none

/-- Parse a non-empty all-digit character list as a natural number. -/
def parseDigits (cs : List Char) : Option Nat :=
  if cs.isEmpty then none
  else
    cs.foldl
      (fun acc c =>
        match acc, digitVal c with
        | some a, some d => some (10 * a + d)
        | _, _ => none)
      (some 0)

/-- Parse an optionally signed decimal integer literal. -/
def parseDec (cs : List Char) : Option Int :=
  match cs with
  | '-' :: rest => (parseDigits rest).map (fun n => -(n : Int))
  | '+' :: rest => (parseDigits rest).map (fun n => (n : Int))
  | _ => (parseDigits cs).map (fun n => (n : Int))

/-- A JavaScript value, as far as the handlers inspect one. -/
inductive JsVal where
  | undef
  | null
  | nan
  | num (n : Int)
  | str (s : String)
deriving DecidableEq

/-- JavaScript truthiness for `JsVal`. -/
def JsVal.truthy : JsVal → Bool
  | .undef => false
  | .null => false
  | .nan => false
  | .num n => n != 0
  | .str s => s != ""

/-- Embedding of `x || ""` for a string-or-absent JavaScript value. -/
def orEmpty (o : Option String) : String :=
  match o with
  | none => ""
  | some s => s

/-- Embedding of `x || null` for a `JsVal` (used for `payload.amount || null`). -/
def jsOrNull (v : JsVal) : JsVal :=
  if v.truthy then v else .null

/-- Embedding of `x || null` for a string-or-absent value
(`payload.currency || null`, `payload.txHash || null`). -/
def strOrNull (o : Option String) : Option String :=
  match o with
  | none => none
  | some s => if s = "" then none else some s

/-- Embedding of the `Number(...)` coercion on the values of `JsVal`
(string parsing restricted to optionally signed decimal integers, which is the
fragment the claims exercise; any other non-empty string yields `NaN`). -/
def jsNumber : JsVal → JsVal
  | .undef => .nan
  | .null => .num 0
  | .nan => .nan
  | .num n => .num n
  | .str s =>
    let t := jsTrim s
    if t = "" then .num 0
    else
      match parseDec t.data with
      | some n => .num n
      | none => .nan

/-! ### Calendar dates (`Date` under a UTC runtime) -/

/-- Gregorian leap-year test (the rule ECMAScript's calendar uses). -/
def isLeap (y : Int) : Bool :=
  (y % 4 == 0 && y % 100 != 0) || y % 400 == 0

/-- Length of month `m` (0-based: 0 = January … 11 = December) of year `y`. -/
def daysInMonth (y : Int) (m : Nat) : Nat :=
  if m = 1 then (if isLeap y then 29 else 28)
  else if m = 3 ∨ m = 5 ∨ m = 8 ∨ m = 10 then 30
  else 31

/-- A civil timestamp: year, 0-based month, 1-based day, milliseconds in the day. -/
structure JsDate where
  year : Int
  month : Nat
  day : Nat
  ms : Nat
deriving DecidableEq

/-- The date denotes an actual calendar instant. -/
def JsDate.Valid (d : JsDate) : Prop :=
  d.month < 12 ∧ 1 ≤ d.day ∧ d.day ≤ daysInMonth d.year d.month ∧ d.ms < 86400000

instance (d : JsDate) : Decidable d.Valid := by
  unfold JsDate.Valid; exact inferInstance

/-- ECMAScript MakeDay normalisation of a (year, month, day) triple whose month
may exceed 11 and whose day (at most 31 here) may exceed the month's length:
the excess months roll into the year and the excess days into the following
month. One carry step is exact because every month has at least 28 days. -/
def makeDay (y : Int) (m : Nat) (day : Nat) (ms : Nat) : JsDate :=
  let y1 : Int := y + (m / 12 : Nat)
  let m1 : Nat := m % 12
  if day ≤ daysInMonth y1 m1 then ⟨y1, m1, day, ms⟩
  else if m1 = 11 then ⟨y1 + 1, 0, day - daysInMonth y1 m1, ms⟩
  else ⟨y1, m1 + 1, day - daysInMonth y1 m1, ms⟩

/-- Embedding of `expires.setMonth(expires.getMonth() + 1)`. -/
def JsDate.setMonthPlus1 (d : JsDate) : JsDate :=
  makeDay d.year (d.month + 1) d.day d.ms

/-- Embedding of `expires.setFullYear(expires.getFullYear() + 1)`. -/
def JsDate.setFullYearPlus1 (d : JsDate) : JsDate :=
  makeDay (d.year + 1) d.month d.day d.ms

/-- The expiry computation both webhook variants perform:
`if (plan === "monthly") expires.setMonth(expires.getMonth() + 1);
 if (plan === "yearly")  expires.setFullYear(expires.getFullYear() + 1);`. -/
def computeExpiry (plan : String) (now : JsDate) : JsDate :=
  let e := now
  let e := if plan = "monthly" then e.setMonthPlus1 else e
  if plan = "yearly" then e.setFullYearPlus1 else e

/-- Chronological strict order on civil timestamps (lexicographic on the
calendar fields, which coincides with instant order for valid dates). -/
def JsDate.before (a b : JsDate) : Prop :=
  a.year < b.year ∨
    (a.year = b.year ∧ (a.month < b.month ∨
      (a.month = b.month ∧ (a.day < b.day ∨
        (a.day = b.day ∧ a.ms < b.ms)))))

instance (a b : JsDate) : Decidable (a.before b) := by
  unfold JsDate.before; exact inferInstance

/-- Leap years `k` with `1 ≤ k ≤ y`, counted with sign (floor division). -/
def leapCount (y : Int) : Int :=
  y.fdiv 4 - y.fdiv 100 + y.fdiv 400

/-- Days from the start of year `y` to the start of its month `m`. -/
def daysBeforeMonth (y : Int) (m : Nat) : Nat :=
  match m with
  | 0 => 0
  | n + 1 => daysBeforeMonth y n + daysInMonth y n

/-- Signed count of days from 0000-01-01 to the date. -/
def epochDays0 (d : JsDate) : Int :=
  365 * d.year + leapCount (d.year - 1) + 1 + (daysBeforeMonth d.year d.month : Int)
    + (d.day : Int) - 1

/-- Milliseconds since the Unix epoch of the civil timestamp
(719528 days separate 0000-01-01 from 1970-01-01). -/
def dateToMs (d : JsDate) : Int :=
  (epochDays0 d - 719528) * 86400000 + (d.ms : Int)

/-- A stored timestamp string: either the ISO-8601 serialisation of a date
(`toISOString`), or a string `Date.parse` cannot parse. -/
inductive TimeStamp where
  | iso (d : JsDate)
  | invalid (s : String)
deriving DecidableEq

/-- Embedding of `Date.parse` on a stored timestamp string, `none` for `NaN`
(the code guards the result with `Number.isFinite`). -/
def dateParseTS : TimeStamp → Option Int
  | .iso d => some (dateToMs d)
  | .invalid _ => none

/-! ### Payloads, records and the store -/

/-- The webhook notification payload, as far as the handlers read it. -/
structure Payload where
  event : Option String := none
  plan : Option String := none
  email : Option String := none
  wallet : Option String := none
  amount : JsVal := .undef
  currency : Option String := none
  txHash : Option String := none
deriving DecidableEq

/-- The `member` object the Blobs variant persists. -/
structure MemberRecord where
  email : Option String
  wallet : Option String
  plan : String
  amount : JsVal
  currency : Option String
  txHash : Option String
  started_at : TimeStamp
  expires_at : TimeStamp
  provider : String
  status : String
deriving DecidableEq

/-- The "members" Blobs store: most recent write first. -/
abbrev Store := List (String × MemberRecord)

/-- `store.setJSON(key, member)` — overwrite semantics via shadowing. -/
def storeSet (s : Store) (k : String) (v : MemberRecord) : Store :=
  (k, v) :: s

/-- `store.getJSON(key)` / `store.get(key)` — most recent value under the key. -/
def storeGet (s : Store) (k : String) : Option MemberRecord :=
  (s.find? (fun p => p.1 == k)).map (·.2)

/-- The raw request body as the handler's `JSON.parse(event.body || "\x7b\x7d")`
observes it: absent, the empty string, well-formed JSON denoting a payload, or
malformed JSON (whose parse throws, reaching the outer catch). -/
inductive Body where
  | missing
  | empty
  | jsonOf (p : Payload)
  | malformed (s : String)
deriving DecidableEq

/-- Embedding of `JSON.parse(event.body || "\x7b\x7d")`: a falsy body parses as
the empty object (every field absent); malformed JSON throws. -/
def parseBody : Body → Except Unit Payload
  | .missing => .ok {}
  | .empty => .ok {}
  | .jsonOf p => .ok p
  | .malformed _ => .error ()

/-! ### Authentication -/

/-- Exact-name lookup in the request's headers object. -/
def getHeader (hs : List (String × String)) (name : String) : Option String :=
  (hs.find? (fun p => p.1 == name)).map (·.2)

/-- JavaScript `a || b` on two string-or-absent values (an empty string is
falsy and falls through to `b`). -/
def headerOr (a b : Option String) : Option String :=
  match a with
  | none => b
  | some s => if s = "" then b else some s

/-- `event.headers["x-helio-signature"] || event.headers["X-Helio-Signature"]`. -/
def signatureOf (hs : List (String × String)) : Option String :=
  headerOr (getHeader hs "x-helio-signature") (getHeader hs "X-Helio-Signature")

/-- JavaScript falsiness of the configured secret (`!secret`):
unset, or set to the empty string. -/
def envFalsy (o : Option String) : Bool :=
  match o with
  | none => true
  | some s => s == ""

inductive AuthResult where
  | misconfigured
  | unauthorized
  | ok
deriving DecidableEq

/-- The shared-secret check both webhook variants perform:
`if (!secret) return 500; if (!signature || signature !== secret) return 401;`. -/
def authenticate (secret : Option String) (hs : List (String × String)) : AuthResult :=
  if envFalsy secret then .misconfigured
  else
    match signatureOf hs with
    | none => .unauthorized
    | some s => if s = "" then .unauthorized else if some s = secret then .ok else .unauthorized

/-! ### The webhook handler (Blobs variant) -/

structure WebhookEvent where
  httpMethod : String
  headers : List (String × String)
  body : Body
deriving DecidableEq

/-- The observable response of the Blobs webhook handler. -/
inductive WebhookResult where
  | text (status : Nat) (msg : String)
  | ignored
  | badRequest (err : String)
  | saved (key : String) (expires_at : TimeStamp)
deriving DecidableEq

/-- The `member` object built by the Blobs variant (source step 4),
given the already-normalised email, wallet and plan. -/
def buildMember (p : Payload) (emailN walletN plan : String) (now expires : JsDate) :
    MemberRecord :=
  { email := if emailN = "" then none else some emailN
    wallet := if walletN = "" then none else some walletN
    plan := plan
    amount := jsOrNull p.amount
    currency := strOrNull p.currency
    txHash := strOrNull p.txHash
    started_at := .iso now
    expires_at := .iso expires
    provider := "helio"
    status := "active" }

/-- The Blobs variant's key derivation:
`email ? ("email:" + email) : ("wallet:" + wallet.toLowerCase())`. -/
def webhookKey (emailN walletN : String) : String :=
  if emailN ≠ "" then "email:" ++ emailN else "wallet:" ++ jsToLower walletN

/-- The Blobs-variant webhook handler, as a function of the configured secret,
the request, the current instant and the prior store contents.  Returns the
response together with the resulting store contents. -/
def paymentWebhookBlobs (secret : Option String) (ev : WebhookEvent) (now : JsDate)
    (store : Store) : WebhookResult × Store :=
  if ev.httpMethod ≠ "POST" then (.text 405 "Method Not Allowed", store)
  else
    match authenticate secret ev.headers with
    | .misconfigured => (.text 500 "Server misconfigured", store)
    | .unauthorized => (.text 401 "Unauthorized", store)
    | .ok =>
      match parseBody ev.body with
      | .error _ => (.text 500 "Internal Server Error", store)
      | .ok payload =>
        if payload.event ≠ some "payment_succeeded" then (.ignored, store)
        else
          let plan := jsToLower (orEmpty payload.plan)
          let email := jsToLower (jsTrim (orEmpty payload.email))
          let wallet := jsTrim (orEmpty payload.wallet)
          if (["monthly", "yearly"] : List String).contains plan = false then
            (.badRequest "Invalid plan", store)
          else if email = "" ∧ wallet = "" then
            (.badRequest "Email or wallet required", store)
          else
            let expires := computeExpiry plan now
            let member := buildMember payload email wallet plan now expires
            let key := webhookKey email wallet
            (.saved key (.iso expires), storeSet store key member)

/-! ### The Supabase variant's normalisation (its payload-handling lines) -/

/-- Supabase variant: `Number(payload.amount || 0)`. -/
def supabaseAmount (a : JsVal) : JsVal :=
  jsNumber (if a.truthy then a else .num 0)

/-- Supabase variant: `(payload.currency || "USDT").toUpperCase()`. -/
def supabaseCurrency (c : Option String) : String :=
  jsToUpper
    (match c with
     | none => "USDT"
     | some s => if s = "" then "USDT" else s)

/-! ### The membership query handler -/

/-- The query request (`params.get("email")` / `params.get("wallet")` results). -/
structure QueryEvent where
  httpMethod : String
  email : Option String
  wallet : Option String
deriving DecidableEq

/-- The observable response of the get-membership handler. -/
inductive QueryResult where
  | text (status : Nat) (msg : String)
  | resp (status : Nat) (ok : Bool) (active : Bool)
      (record : Option MemberRecord) (reason : Option String)
deriving DecidableEq

/-- The query handler's key derivation:
`email ? ("email:" + email) : ("wallet:" + wallet.toLowerCase())`. -/
def queryKey (emailN walletN : String) : String :=
  if emailN ≠ "" then "email:" ++ emailN else "wallet:" ++ jsToLower walletN

/-- The get-membership handler, as a function of the request, the store
contents and the current instant (`Date.now()` in epoch milliseconds). -/
def getMembership (ev : QueryEvent) (store : Store) (now : Int) : QueryResult :=
  if ev.httpMethod ≠ "GET" then .text 405 "Method Not Allowed"
  else
    let email := jsToLower (jsTrim (orEmpty ev.email))
    let wallet := jsTrim (orEmpty ev.wallet)
    if email = "" ∧ wallet = "" then .resp 400 false false none (some "missing_param")
    else
      match storeGet store (queryKey email wallet) with
      | none => .resp 200 true false none (some "not_found")
      | some record =>
        let active :=
          match dateParseTS record.expires_at with
          | some t => decide (t > now)
          | none => false
        .resp 200 true active (if active then some record else none)
          (if active then none else some "expired")

/-! ### Specification-side calendar addition (worded from the amended claim) -/

/-- Modelled from the amended claim: one-calendar-month addition that keeps the
day-of-month (December wrapping to January of the next year) and rolls any
overflow days past the target month's length into the following month. -/
def specPlusOneMonth (d : JsDate) : JsDate :=
  let ty : Int := if d.month = 11 then d.year + 1 else d.year
  let tm : Nat := if d.month = 11 then 0 else d.month + 1
  if d.day ≤ daysInMonth ty tm then ⟨ty, tm, d.day, d.ms⟩
  else if tm = 11 then ⟨ty + 1, 0, d.day - daysInMonth ty tm, d.ms⟩
  else ⟨ty, tm + 1, d.day - daysInMonth ty tm, d.ms⟩

/-- Modelled from the amended claim: one-calendar-year addition that keeps
month and day-of-month and rolls overflow days (Feb 29 of a leap year landing
in a non-leap year) into the following month. -/
def specPlusOneYear (d : JsDate) : JsDate :=
  if d.day ≤ daysInMonth (d.year + 1) d.month then ⟨d.year + 1, d.month, d.day, d.ms⟩
  else if d.month = 11 then ⟨d.year + 2, 0, d.day - daysInMonth (d.year + 1) d.month, d.ms⟩
  else ⟨d.year + 1, d.month + 1, d.day - daysInMonth (d.year + 1) d.month, d.ms⟩

/-- Modelled from the spec: a record is active exactly when its parsed
`expires_at` is strictly later than the current time; an `expires_at` that
fails to parse as a valid timestamp is treated as inactive. -/
def activeAt (r : MemberRecord) (now : Int) : Bool :=
  match dateParseTS r.expires_at with
  | some t => decide (t > now)
  | none => false

/-! ### Helper lemmas -/

theorem daysInMonth_le_31 (y : Int) (m : Nat) : daysInMonth y m ≤ 31 := by
  unfold daysInMonth; split_ifs <;> omega

theorem le_daysInMonth (y : Int) (m : Nat) : 28 ≤ daysInMonth y m := by
  unfold daysInMonth; split_ifs <;> omega

theorem storeGet_storeSet (s : Store) (k : String) (v : MemberRecord) :
    storeGet (storeSet s k v) k = some v := by
  simp [storeGet, storeSet, List.find?]

/-! ### C1 -/

/-- C1 (counterexample): the persisted expiry does not clamp month-end
overflow to the last valid day of the target month.  A `started_at` of
Jan 31, 2025 with `plan=monthly` yields Mar 3, 2025 — not Feb 28, 2025, the
last valid day of February, as the claim states. -/
theorem C1_expiry_clamp_counterexample :
    computeExpiry "monthly" ⟨2025, 0, 31, 0⟩ = ⟨2025, 2, 3, 0⟩ ∧
    computeExpiry "monthly" ⟨2025, 0, 31, 0⟩ ≠ ⟨2025, 1, 28, 0⟩ := by
  decide

/-- C1 (amended): for every valid start instant, `plan=monthly` yields
`started_at` advanced by one calendar month and `plan=yearly` by one calendar
year (not fixed 30/365-day offsets), where a day-of-month that exceeds the
target month's length rolls over into the following month per the JavaScript
`Date` convention (e.g. Jan 31 + 1 month → Mar 3) rather than clamping to the
month's last valid day. -/
theorem C1_expiry_rollover_amended (d : JsDate) (hd : d.Valid) :
    computeExpiry "monthly" d = specPlusOneMonth d ∧
    computeExpiry "yearly" d = specPlusOneYear d := by
  obtain ⟨hm, hd1, hd2, hms⟩ := hd
  have hmo : computeExpiry "monthly" d = makeDay d.year (d.month + 1) d.day d.ms := by
    simp [computeExpiry, JsDate.setMonthPlus1]
  have hye : computeExpiry "yearly" d = makeDay (d.year + 1) d.month d.day d.ms := by
    simp [computeExpiry, JsDate.setFullYearPlus1]
  constructor
  · rw [hmo]
    by_cases h11 : d.month = 11
    · have hdiv : (d.month + 1) / 12 = 1 := by omega
      have hmod : (d.month + 1) % 12 = 0 := by omega
      simp only [makeDay, specPlusOneMonth, hdiv, hmod, h11]
      norm_num
    · have hdiv : (d.month + 1) / 12 = 0 := by omega
      have hmod : (d.month + 1) % 12 = d.month + 1 := by omega
      simp only [makeDay, specPlusOneMonth, hdiv, hmod, if_neg h11]
      norm_num
  · rw [hye]
    have hdiv : d.month / 12 = 0 := by omega
    have hmod : d.month % 12 = d.month := by omega
    simp only [makeDay, specPlusOneYear, hdiv, hmod]
    norm_num
    split_ifs <;> simp [JsDate.mk.injEq] <;> omega

/-- Witness for C1 (amended) at Jan 31, 2025. -/
theorem C1_expiry_rollover_witness :
    (JsDate.mk 2025 0 31 0).Valid ∧
      computeExpiry "monthly" ⟨2025, 0, 31, 0⟩ = specPlusOneMonth ⟨2025, 0, 31, 0⟩ :=
  ⟨by decide, (C1_expiry_rollover_amended ⟨2025, 0, 31, 0⟩ (by decide)).1⟩

/-! ### C9 -/

/-- C9: for both plans, from any valid start instant, the computed
`expires_at` is strictly after `started_at`. -/
theorem C9_expires_after_start (d : JsDate) (hd : d.Valid) (plan : String)
    (hp : plan = "monthly" ∨ plan = "yearly") : d.before (computeExpiry plan d) := by
  obtain ⟨hm, hd1, hd2, hms⟩ := hd
  rcases hp with h | h <;> subst h
  · have hmo : computeExpiry "monthly" d = makeDay d.year (d.month + 1) d.day d.ms := by
      simp [computeExpiry, JsDate.setMonthPlus1]
    rw [hmo]
    by_cases h11 : d.month = 11
    · have hdiv : (d.month + 1) / 12 = 1 := by omega
      have hmod : (d.month + 1) % 12 = 0 := by omega
      simp only [makeDay, hdiv, hmod]
      split_ifs <;> simp [JsDate.before] <;> omega
    · have hdiv : (d.month + 1) / 12 = 0 := by omega
      have hmod : (d.month + 1) % 12 = d.month + 1 := by omega
      simp only [makeDay, hdiv, hmod]
      split_ifs <;> simp [JsDate.before] <;> omega
  · have hye : computeExpiry "yearly" d = makeDay (d.year + 1) d.month d.day d.ms := by
      simp [computeExpiry, JsDate.setFullYearPlus1]
    rw [hye]
    have hdiv : d.month / 12 = 0 := by omega
    have hmod : d.month % 12 = d.month := by omega
    simp only [makeDay, hdiv, hmod]
    split_ifs <;> simp [JsDate.before] <;> omega

/-- Witness for C9 at Jan 31, 2025 with the monthly plan. -/
theorem C9_expires_after_start_witness :
    (JsDate.mk 2025 0 31 0).Valid ∧
      JsDate.before ⟨2025, 0, 31, 0⟩ (computeExpiry "monthly" ⟨2025, 0, 31, 0⟩) :=
  ⟨by decide, C9_expires_after_start ⟨2025, 0, 31, 0⟩ (by decide) "monthly" (Or.inl rfl)⟩

/-! ### C3 -/

/-- C3 (counterexample): header lookup is not case-insensitive.  A POST
request whose signature header carries the configured secret under the casing
`X-HELIO-SIGNATURE` is rejected with 401, although the claim says
authentication succeeds regardless of the casing of the header name. -/
theorem C3_header_casing_counterexample :
    paymentWebhookBlobs (some "sec")
        ⟨"POST", [("X-HELIO-SIGNATURE", "sec")],
          .jsonOf { event := some "payment_succeeded", plan := some "monthly",
                    email := some "a@b.c" }⟩
        ⟨2025, 0, 15, 0⟩ [] = (.text 401 "Unauthorized", []) := by
  decide

/-- C3 (amended): with a configured non-empty secret, authentication succeeds
when the signature header is presented under exactly the lower-case name
`x-helio-signature` or the canonical name `X-Helio-Signature` with the secret
as value (the two casings the code looks up) — any other casing of the header
name is treated as an absent header — and every request whose looked-up header
value is absent, empty or different from the secret is rejected with 401. -/
theorem C3_header_lookup_amended (sec : String) (hsec : sec ≠ "") :
    (∀ hs, getHeader hs "x-helio-signature" = some sec →
      authenticate (some sec) hs = .ok) ∧
    (∀ hs, getHeader hs "x-helio-signature" = none →
      getHeader hs "X-Helio-Signature" = some sec →
      authenticate (some sec) hs = .ok) ∧
    (∀ v, authenticate (some sec) [("X-HELIO-SIGNATURE", v)] = .unauthorized) ∧
    (∀ hs, (signatureOf hs = none ∨ signatureOf hs = some "" ∨
        (∀ v, signatureOf hs = some v → v ≠ sec)) →
      authenticate (some sec) hs = .unauthorized) ∧
    (∀ ev now store, ev.httpMethod = "POST" →
      authenticate (some sec) ev.headers = .unauthorized →
      paymentWebhookBlobs (some sec) ev now store = (.text 401 "Unauthorized", store)) := by
  have hef : envFalsy (some sec) = false := by simp [envFalsy, hsec]
  refine ⟨?_, ?_, ?_, ?_, ?_⟩
  · intro hs h
    simp [authenticate, hef, signatureOf, headerOr, h, hsec]
  · intro hs h1 h2
    simp [authenticate, hef, signatureOf, headerOr, h1, h2, hsec]
  · intro v
    simp [authenticate, hef, signatureOf, headerOr, getHeader, List.find?]
  · intro hs h
    unfold authenticate
    rw [hef]
    simp only [Bool.false_eq_true, if_false]
    rcases hsig : signatureOf hs with _ | s
    · rfl
    · rcases h with h | h | h
      · rw [hsig] at h; exact absurd h (by simp)
      · rw [hsig] at h
        simp only [Option.some.injEq] at h
        simp [h]
      · have hne : s ≠ sec := h s hsig
        simp [hne, if_neg]
  · intro ev now store hm hauth
    unfold paymentWebhookBlobs
    rw [if_neg (by simp [hm]), hauth]

/-- Witness for C3 (amended): the lower-case header name with the correct
value authenticates. -/
theorem C3_header_lookup_witness :
    authenticate (some "sec") [("x-helio-signature", "sec")] = .ok :=
  (C3_header_lookup_amended "sec" (by decide)).1
    [("x-helio-signature", "sec")] (by decide)

/-! ### C4 -/

/-- C4: with the shared webhook secret unset, every POST request is answered
with the 500 "Server misconfigured" response, whatever its headers, and that
response is distinct from the 401 auth-failure response. -/
theorem C4_unset_secret_misconfigured (ev : WebhookEvent) (now : JsDate)
    (store : Store) (hm : ev.httpMethod = "POST") :
    paymentWebhookBlobs none ev now store = (.text 500 "Server misconfigured", store) ∧
    (WebhookResult.text 500 "Server misconfigured" ≠ WebhookResult.text 401 "Unauthorized") := by
  constructor
  · unfold paymentWebhookBlobs
    rw [if_neg (by simp [hm])]
    have : authenticate none ev.headers = .misconfigured := by
      simp [authenticate, envFalsy]
    rw [this]
  · decide

/-- Witness for C4. -/
theorem C4_unset_secret_misconfigured_witness :
    paymentWebhookBlobs none
        ⟨"POST", [("x-helio-signature", "anything")], .missing⟩ ⟨2025, 0, 1, 0⟩ [] =
      (.text 500 "Server misconfigured", []) :=
  (C4_unset_secret_misconfigured
    ⟨"POST", [("x-helio-signature", "anything")], .missing⟩ ⟨2025, 0, 1, 0⟩ [] rfl).1

/-! ### C7 -/

/-- C7: the webhook handler and the query handler derive the identity key by
the same scheme, and email is authoritative: with a non-empty normalised email
the key is `email:<email>` whatever the wallet, otherwise it is
`wallet:<lowercased wallet>`. -/
theorem C7_key_scheme_shared :
    (∀ e w, webhookKey e w = queryKey e w) ∧
    (∀ e w, e ≠ "" → webhookKey e w = "email:" ++ e ∧ queryKey e w = "email:" ++ e) ∧
    (∀ w, webhookKey "" w = "wallet:" ++ jsToLower w) := by
  refine ⟨fun e w => rfl, fun e w he => ?_, fun w => rfl⟩
  constructor <;> simp [webhookKey, queryKey, he]

/-- Witness for C7: with both identities given, the email branch wins. -/
theorem C7_key_scheme_shared_witness :
    webhookKey "a@b.c" "0xAbC" = "email:" ++ "a@b.c" :=
  ((C7_key_scheme_shared).2.1 "a@b.c" "0xAbC" (by decide)).1

/-! ### C10 -/

/-- C10: an authenticated POST whose body is absent or the empty string is
parsed as the empty JSON object, so the handler acknowledges with the
200 ignored response and leaves the store unchanged, rather than failing on
malformed JSON. -/
theorem C10_empty_body_ignored (secret : Option String) (ev : WebhookEvent)
    (now : JsDate) (store : Store) (hm : ev.httpMethod = "POST")
    (ha : authenticate secret ev.headers = .ok)
    (hb : ev.body = .missing ∨ ev.body = .empty) :
    paymentWebhookBlobs secret ev now store = (.ignored, store) := by
  unfold paymentWebhookBlobs
  rw [if_neg (by simp [hm]), ha]
  rcases hb with hb | hb <;> rw [hb] <;> rfl

/-- Witness for C10. -/
theorem C10_empty_body_ignored_witness :
    paymentWebhookBlobs (some "sec") ⟨"POST", [("x-helio-signature", "sec")], .missing⟩
        ⟨2025, 0, 1, 0⟩ [] = (.ignored, []) :=
  C10_empty_body_ignored (some "sec")
    ⟨"POST", [("x-helio-signature", "sec")], .missing⟩ ⟨2025, 0, 1, 0⟩ [] rfl
    (by decide) (Or.inl rfl)

/-! ### Characterisation of a successful webhook write -/

/-- Any webhook invocation that answers `saved` wrote exactly one record: the
normalised member under the derived key, with the computed expiry. -/
theorem webhook_saved_run (secret : Option String) (ev : WebhookEvent) (now : JsDate)
    (store : Store) (p : Payload) (k : String) (ts : TimeStamp) (st2 : Store)
    (hp : parseBody ev.body = Except.ok p)
    (hrun : paymentWebhookBlobs secret ev now store = (.saved k ts, st2)) :
    k = webhookKey (jsToLower (jsTrim (orEmpty p.email))) (jsTrim (orEmpty p.wallet)) ∧
    st2 = storeSet store k
        (buildMember p (jsToLower (jsTrim (orEmpty p.email))) (jsTrim (orEmpty p.wallet))
          (jsToLower (orEmpty p.plan)) now (computeExpiry (jsToLower (orEmpty p.plan)) now)) ∧
    ts = TimeStamp.iso (computeExpiry (jsToLower (orEmpty p.plan)) now) := by
  unfold paymentWebhookBlobs at hrun
  split at hrun
  · exact absurd hrun (by simp)
  · split at hrun
    · exact absurd hrun (by simp)
    · exact absurd hrun (by simp)
    · rw [hp] at hrun
      simp only at hrun
      split at hrun
      · exact absurd hrun (by simp)
      · split at hrun
        · exact absurd hrun (by simp)
        · split at hrun
          · exact absurd hrun (by simp)
          · simp only [Prod.mk.injEq, WebhookResult.saved.injEq] at hrun
            obtain ⟨⟨hk, hts⟩, hst⟩ := hrun
            subst hk
            exact ⟨rfl, hst.symm, hts.symm⟩

/-! ### C2 -/

/-- C2 (counterexample): the persisted record does not normalise `currency`
or `amount`.  For an authenticated, valid notification with
`currency="usdt"` and no `amount`, the Blobs variant persists
`currency="usdt"` (not upper-cased) and `amount=null` (not the number 0). -/
theorem C2_normalization_counterexample :
    (paymentWebhookBlobs (some "sec")
        ⟨"POST", [("x-helio-signature", "sec")],
          .jsonOf { event := some "payment_succeeded", plan := some "monthly",
                    email := some "a@b.c", amount := .undef, currency := some "usdt" }⟩
        ⟨2025, 0, 15, 0⟩ []).2 =
      [("email:a@b.c",
        { email := some "a@b.c", wallet := none, plan := "monthly",
          amount := JsVal.null, currency := some "usdt", txHash := none,
          started_at := .iso ⟨2025, 0, 15, 0⟩, expires_at := .iso ⟨2025, 1, 15, 0⟩,
          provider := "helio", status := "active" })] ∧
    ("usdt" : String) ≠ "USDT" ∧ JsVal.null ≠ JsVal.num 0 := by
  decide

/-- C2 (amended): for every authenticated `payment_succeeded` notification
that passes validation, the persisted record normalises `plan` (lower-cased),
`email` (trimmed, lower-cased, or null) and `wallet` (trimmed or null), while
`currency` and `amount` are persisted as given (null when absent or falsy),
without upper-casing or numeric coercion; the Supabase variant alone
upper-cases `currency` (defaulting to "USDT") and applies
`Number(amount || 0)`, which maps an absent amount to 0 but a non-numeric
string to NaN, not 0. -/
theorem C2_normalization_amended (secret : Option String) (ev : WebhookEvent)
    (now : JsDate) (store : Store) (p : Payload) (k : String) (ts : TimeStamp)
    (st2 : Store) (hp : parseBody ev.body = Except.ok p)
    (hrun : paymentWebhookBlobs secret ev now store = (.saved k ts, st2)) :
    (∃ m, storeGet st2 k = some m ∧
      m.plan = jsToLower (orEmpty p.plan) ∧
      m.email = (if jsToLower (jsTrim (orEmpty p.email)) = "" then none
                 else some (jsToLower (jsTrim (orEmpty p.email)))) ∧
      m.wallet = (if jsTrim (orEmpty p.wallet) = "" then none
                  else some (jsTrim (orEmpty p.wallet))) ∧
      m.currency = strOrNull p.currency ∧
      m.amount = jsOrNull p.amount) ∧
    supabaseCurrency (some "usdt") = "USDT" ∧
    supabaseAmount JsVal.undef = JsVal.num 0 ∧
    supabaseAmount (JsVal.str "abc") = JsVal.nan := by
  obtain ⟨hk, hst, hts⟩ :=
    webhook_saved_run secret ev now store p k ts st2 hp hrun
  subst hst
  exact ⟨⟨_, storeGet_storeSet _ _ _, rfl, rfl, rfl, rfl, rfl⟩,
    by decide, by decide, by decide⟩

/-- Witness for C2 (amended), at a concrete successful run. -/
theorem C2_normalization_witness :
    (∃ m, storeGet
        [("email:a@b.c",
          { email := some "a@b.c", wallet := none, plan := "monthly",
            amount := JsVal.null, currency := some "usdt", txHash := none,
            started_at := .iso ⟨2025, 0, 15, 0⟩, expires_at := .iso ⟨2025, 1, 15, 0⟩,
            provider := "helio", status := "active" : MemberRecord })] "email:a@b.c" = some m ∧
      m.plan = jsToLower (orEmpty (some "monthly")) ∧
      m.email = (if jsToLower (jsTrim (orEmpty (some "a@b.c"))) = "" then none
                 else some (jsToLower (jsTrim (orEmpty (some "a@b.c"))))) ∧
      m.wallet = (if jsTrim (orEmpty none) = "" then none
                  else some (jsTrim (orEmpty none))) ∧
      m.currency = strOrNull (some "usdt") ∧
      m.amount = jsOrNull JsVal.undef) ∧
    supabaseCurrency (some "usdt") = "USDT" ∧
    supabaseAmount JsVal.undef = JsVal.num 0 ∧
    supabaseAmount (JsVal.str "abc") = JsVal.nan :=
  C2_normalization_amended (some "sec")
    ⟨"POST", [("x-helio-signature", "sec")],
      .jsonOf { event := some "payment_succeeded", plan := some "monthly",
                email := some "a@b.c", amount := .undef, currency := some "usdt" }⟩
    ⟨2025, 0, 15, 0⟩ []
    { event := some "payment_succeeded", plan := some "monthly",
      email := some "a@b.c", amount := .undef, currency := some "usdt" }
    "email:a@b.c" (.iso ⟨2025, 1, 15, 0⟩)
    [("email:a@b.c",
      { email := some "a@b.c", wallet := none, plan := "monthly",
        amount := JsVal.null, currency := some "usdt", txHash := none,
        started_at := .iso ⟨2025, 0, 15, 0⟩, expires_at := .iso ⟨2025, 1, 15, 0⟩,
        provider := "helio", status := "active" })]
    rfl (by decide)

/-! ### C5 -/

/-- C5: for a GET query with an identity present, when no record exists the
response is the success envelope `active:false, reason:"not_found"`; when a
record exists the response's `active` equals "parsed `expires_at` strictly
later than the current time" (unparsable `expires_at` counting as inactive),
an active response includes the full stored record, and an inactive one omits
the record and carries reason `"expired"`. -/
theorem C5_query_activeness (ev : QueryEvent) (store : Store) (now : Int)
    (hm : ev.httpMethod = "GET")
    (hid : ¬(jsToLower (jsTrim (orEmpty ev.email)) = "" ∧ jsTrim (orEmpty ev.wallet) = "")) :
    (storeGet store
        (queryKey (jsToLower (jsTrim (orEmpty ev.email))) (jsTrim (orEmpty ev.wallet))) = none →
      getMembership ev store now = .resp 200 true false none (some "not_found")) ∧
    (∀ r, storeGet store
        (queryKey (jsToLower (jsTrim (orEmpty ev.email))) (jsTrim (orEmpty ev.wallet))) = some r →
      getMembership ev store now =
        .resp 200 true (activeAt r now) (if activeAt r now then some r else none)
          (if activeAt r now then none else some "expired")) := by
  unfold getMembership
  rw [if_neg (by simp [hm])]
  simp only
  rw [if_neg hid]
  constructor
  · intro h
    rw [h]
  · intro r h
    rw [h]
    rfl

/-- Witness for C5: a stored record with a future expiry is reported active
with the full record included. -/
theorem C5_query_activeness_witness :
    getMembership ⟨"GET", some "a@b.c", none⟩
        [("email:a@b.c",
          { email := some "a@b.c", wallet := none, plan := "monthly",
            amount := JsVal.null, currency := none, txHash := none,
            started_at := .iso ⟨2024, 0, 1, 0⟩, expires_at := .iso ⟨2025, 0, 1, 0⟩,
            provider := "helio", status := "active" : MemberRecord })] 0 =
      .resp 200 true true
        (some { email := some "a@b.c", wallet := none, plan := "monthly",
                amount := JsVal.null, currency := none, txHash := none,
                started_at := .iso ⟨2024, 0, 1, 0⟩, expires_at := .iso ⟨2025, 0, 1, 0⟩,
                provider := "helio", status := "active" }) none := by
  have h := (C5_query_activeness ⟨"GET", some "a@b.c", none⟩
    [("email:a@b.c",
      { email := some "a@b.c", wallet := none, plan := "monthly",
        amount := JsVal.null, currency := none, txHash := none,
        started_at := .iso ⟨2024, 0, 1, 0⟩, expires_at := .iso ⟨2025, 0, 1, 0⟩,
        provider := "helio", status := "active" })] 0 rfl (by decide)).2
    { email := some "a@b.c", wallet := none, plan := "monthly",
      amount := JsVal.null, currency := none, txHash := none,
      started_at := .iso ⟨2024, 0, 1, 0⟩, expires_at := .iso ⟨2025, 0, 1, 0⟩,
      provider := "helio", status := "active" } (by decide)
  rw [h]
  decide

/-! ### C6 -/

/-- C6: an authenticated `payment_succeeded` notification that fails
validation is rejected with the 400-class error — invalid-plan when the
normalised plan is not `monthly`/`yearly`, missing-identity when both the
normalised email and wallet are empty — and the store is left unchanged. -/
theorem C6_validation_rejects_no_write (secret : Option String) (ev : WebhookEvent)
    (now : JsDate) (store : Store) (p : Payload)
    (hm : ev.httpMethod = "POST")
    (ha : authenticate secret ev.headers = .ok)
    (hp : parseBody ev.body = Except.ok p)
    (he : p.event = some "payment_succeeded") :
    ((["monthly", "yearly"] : List String).contains (jsToLower (orEmpty p.plan)) = false →
      paymentWebhookBlobs secret ev now store = (.badRequest "Invalid plan", store)) ∧
    ((["monthly", "yearly"] : List String).contains (jsToLower (orEmpty p.plan)) = true →
      jsToLower (jsTrim (orEmpty p.email)) = "" → jsTrim (orEmpty p.wallet) = "" →
      paymentWebhookBlobs secret ev now store = (.badRequest "Email or wallet required", store)) := by
  unfold paymentWebhookBlobs
  rw [if_neg (by simp [hm]), ha, hp]
  simp only
  rw [if_neg (by simp [he])]
  constructor
  · intro hplan
    rw [if_pos hplan]
  · intro hplan hem hwa
    rw [if_neg (by rw [hplan]; decide), if_pos ⟨hem, hwa⟩]

/-- Witness for C6: an unsupported plan `"weekly"` is rejected with the
invalid-plan error and no write occurs. -/
theorem C6_validation_rejects_witness :
    paymentWebhookBlobs (some "sec")
        ⟨"POST", [("x-helio-signature", "sec")],
          .jsonOf { event := some "payment_succeeded", plan := some "weekly",
                    email := some "a@b.c" }⟩
        ⟨2025, 0, 15, 0⟩ [] = (.badRequest "Invalid plan", []) :=
  (C6_validation_rejects_no_write (some "sec")
    ⟨"POST", [("x-helio-signature", "sec")],
      .jsonOf { event := some "payment_succeeded", plan := some "weekly",
                email := some "a@b.c" }⟩
    ⟨2025, 0, 15, 0⟩ []
    { event := some "payment_succeeded", plan := some "weekly", email := some "a@b.c" }
    rfl (by decide) rfl rfl).1 (by decide)

/-- A record-exists response of the query handler is never the
`not_found` response, whatever the activeness. -/
theorem respNeNotFound (b : Bool) (r : MemberRecord) :
    QueryResult.resp 200 true b (if b = true then some r else none)
        (if b = true then none else some "expired") ≠
      QueryResult.resp 200 true false none (some "not_found") := by
  cases b <;> simp

/-! ### C8 -/

/-- C8 (round-trip): for every record the webhook handler writes, a
membership query whose `email` (resp. `wallet`) parameter normalises — under
any casing or surrounding-whitespace variation — to the same identity derives
the same store key, reads back exactly the written record, and in particular
never answers `not_found`. -/
theorem C8_round_trip (secret : Option String) (ev : WebhookEvent) (now : JsDate)
    (store : Store) (p : Payload) (k : String) (ts : TimeStamp) (st2 : Store)
    (hp : parseBody ev.body = Except.ok p)
    (hrun : paymentWebhookBlobs secret ev now store = (.saved k ts, st2))
    (qe qw : Option String)
    (he : jsToLower (jsTrim (orEmpty qe)) = jsToLower (jsTrim (orEmpty p.email)))
    (hw : jsToLower (jsTrim (orEmpty qw)) = jsToLower (jsTrim (orEmpty p.wallet)))
    (hq : ¬(jsToLower (jsTrim (orEmpty qe)) = "" ∧ jsTrim (orEmpty qw) = "")) :
    queryKey (jsToLower (jsTrim (orEmpty qe))) (jsTrim (orEmpty qw)) = k ∧
    storeGet st2 (queryKey (jsToLower (jsTrim (orEmpty qe))) (jsTrim (orEmpty qw))) =
      some (buildMember p (jsToLower (jsTrim (orEmpty p.email))) (jsTrim (orEmpty p.wallet))
        (jsToLower (orEmpty p.plan)) now (computeExpiry (jsToLower (orEmpty p.plan)) now)) ∧
    (∀ qnow, getMembership ⟨"GET", qe, qw⟩ st2 qnow ≠
      .resp 200 true false none (some "not_found")) := by
  obtain ⟨hk, hst, hts⟩ :=
    webhook_saved_run secret ev now store p k ts st2 hp hrun
  have hkey : queryKey (jsToLower (jsTrim (orEmpty qe))) (jsTrim (orEmpty qw)) = k := by
    subst hk
    by_cases hce : jsToLower (jsTrim (orEmpty p.email)) = ""
    · rw [queryKey, webhookKey, if_neg (by simp [he, hce]), if_neg (by simp [hce]), hw]
    · rw [queryKey, webhookKey, if_pos (by simp [he, hce]), if_pos (by simp [hce]), he]
  refine ⟨hkey, ?_, ?_⟩
  · rw [hkey, hst, hk]
    exact storeGet_storeSet _ _ _
  · intro qnow
    unfold getMembership
    rw [if_neg (by simp)]
    simp only
    rw [if_neg hq, hkey, hst, hk, storeGet_storeSet]
    exact respNeNotFound _ _

/-- Witness for C8: a record written for email `" A@B.c "` is retrieved by a
query for `"A@B.C"`. -/
theorem C8_round_trip_witness :
    queryKey (jsToLower (jsTrim (orEmpty (some "A@B.C"))))
        (jsTrim (orEmpty (none : Option String))) = "email:a@b.c" ∧
    storeGet
        [("email:a@b.c",
          { email := some "a@b.c", wallet := none, plan := "monthly",
            amount := JsVal.null, currency := none, txHash := none,
            started_at := .iso ⟨2025, 0, 15, 0⟩, expires_at := .iso ⟨2025, 1, 15, 0⟩,
            provider := "helio", status := "active" : MemberRecord })]
        (queryKey (jsToLower (jsTrim (orEmpty (some "A@B.C"))))
          (jsTrim (orEmpty (none : Option String)))) =
      some (buildMember
        { event := some "payment_succeeded", plan := some "monthly",
          email := some " A@B.c " }
        (jsToLower (jsTrim (orEmpty (some " A@B.c "))))
        (jsTrim (orEmpty (none : Option String)))
        (jsToLower (orEmpty (some "monthly"))) ⟨2025, 0, 15, 0⟩
        (computeExpiry (jsToLower (orEmpty (some "monthly"))) ⟨2025, 0, 15, 0⟩)) ∧
    (∀ qnow, getMembership ⟨"GET", some "A@B.C", none⟩
        [("email:a@b.c",
          { email := some "a@b.c", wallet := none, plan := "monthly",
            amount := JsVal.null, currency := none, txHash := none,
            started_at := .iso ⟨2025, 0, 15, 0⟩, expires_at := .iso ⟨2025, 1, 15, 0⟩,
            provider := "helio", status := "active" })] qnow ≠
      .resp 200 true false none (some "not_found")) :=
  C8_round_trip (some "sec")
    ⟨"POST", [("x-helio-signature", "sec")],
      .jsonOf { event := some "payment_succeeded", plan := some "monthly",
                email := some " A@B.c " }⟩
    ⟨2025, 0, 15, 0⟩ []
    { event := some "payment_succeeded", plan := some "monthly",
      email := some " A@B.c " }
    "email:a@b.c" (.iso ⟨2025, 1, 15, 0⟩)
    [("email:a@b.c",
      { email := some "a@b.c", wallet := none, plan := "monthly",
        amount := JsVal.null, currency := none, txHash := none,
        started_at := .iso ⟨2025, 0, 15, 0⟩, expires_at := .iso ⟨2025, 1, 15, 0⟩,
        provider := "helio", status := "active" })]
    rfl (by decide) (some "A@B.C") none (by decide) (by decide) (by decide)
